import Mathlib

/-!
Verification development for the college event-management scaffold.

The repository contains two kinds of relevant material:
  (a) executable configuration/bootstrap code embedded in the checked-in
      documents (the mongoose connection options and error branch of
      connectDB, the express-rate-limit configuration, the health-check
      endpoint in design.md, and the getEnvVars environment selector in
      README.md) — these are embedded directly from those listings;
  (b) the role-based session / authorization core, which is specified in
      the requirements and design documents but has no implementation in
      the repository — definitions for it are modelled from the written
      specification and are marked as such in their doc comments.
-/

namespace CollegeApp

/-! ## Roles (from the data model: student, club_head, pr, oc, admin) -/

/-- Role of a principal, as the specified tagged variant
student / club_head / pr / oc / admin. -/
inductive Role where
  | student
  | club_head
  | pr
  | oc
  | admin
deriving DecidableEq, Repr

/-- Council tier for the session concurrency cap: the roles pr, oc and
club_head (the cap invariant names exactly these three). -/
def isCouncil : Role → Bool
  | .club_head => true
  | .pr => true
  | .oc => true
  | _ => false

/-! ## C6 / C7: persistence-layer connection configuration (connectDB) -/

/-- Options object passed by connectDB to mongoose.connect in the
backend/config/database.js listing of design.md. -/
structure ConnectOptions where
  useNewUrlParser : Bool
  useUnifiedTopology : Bool
  maxPoolSize : Nat
  minPoolSize : Nat
  maxIdleTimeMS : Nat
  serverSelectionTimeoutMS : Nat
  socketTimeoutMS : Nat
  connectTimeoutMS : Nat
  bufferMaxEntries : Nat
  bufferCommands : Bool
  heartbeatFrequencyMS : Nat
  retryWrites : Bool
  w : String
deriving DecidableEq, Repr

/-- The literal options object from the database.js listing in design.md. -/
def connectOptions : ConnectOptions :=
  { useNewUrlParser := true
    useUnifiedTopology := true
    maxPoolSize := 10
    minPoolSize := 2
    maxIdleTimeMS := 30000
    serverSelectionTimeoutMS := 5000
    socketTimeoutMS := 45000
    connectTimeoutMS := 10000
    bufferMaxEntries := 0
    bufferCommands := false
    heartbeatFrequencyMS := 10000
    retryWrites := true
    w := "majority" }

/-- Error value caught by the connectDB catch branch (the fields it logs). -/
structure DBError where
  message : String
  code : Nat
  name : String
deriving DecidableEq, Repr

/-- A successful mongoose connection (the fields connectDB logs). -/
structure DBConn where
  host : String
  dbName : String
  readyState : Nat
deriving DecidableEq, Repr

/-- Outcome of running connectDB: either a value is returned to the
caller, or the process terminates via process.exit with the given code. -/
inductive ConnectOutcome where
  | ret (r : Except DBError DBConn)
  | exit (code : Nat)
deriving Repr

/-- connectDB from backend/config/database.js in design.md, as a function
of the result of the awaited mongoose.connect call: the try branch returns
the connection, the catch branch logs and calls process.exit(1). -/
def connectDB (attempt : Except DBError DBConn) : ConnectOutcome :=
  match attempt with
  | .ok conn => .ret (.ok conn)
  | .error _ => .exit 1

/-- The second connectDB copy, from the backend/server.js listing in
design.md: same shape, the catch branch also calls process.exit(1). -/
def connectDBServer (attempt : Except DBError DBConn) : ConnectOutcome :=
  match attempt with
  | .ok conn => .ret (.ok conn)
  | .error _ => .exit 1

/-! ## C8: express-rate-limit configuration from the server.js listing -/

/-- Leading decimal digits of a character list, in the manner of the
JavaScript parseInt: none when the first character is not a digit. -/
def leadingDigitsAux : List Char → Nat → Nat
  | [], acc => acc
  | c :: rest, acc =>
      if c.isDigit then leadingDigitsAux rest (acc * 10 + (c.toNat - 48)) else acc

/-- Parse the longest digit prefix; none when there is no leading digit. -/
def leadingDigits : List Char → Option Nat
  | [] => none
  | c :: rest =>
      if c.isDigit then some (leadingDigitsAux rest (c.toNat - 48)) else none

/-- Value of one hexadecimal digit, none for any other character. -/
def hexDigitVal (c : Char) : Option Nat :=
  if c.isDigit then some (c.toNat - 48)
  else if 97 ≤ c.toNat && c.toNat ≤ 102 then some (c.toNat - 87)
  else if 65 ≤ c.toNat && c.toNat ≤ 70 then some (c.toNat - 55)
  else none

/-- Accumulate the longest hexadecimal digit prefix. -/
def leadingHexAux : List Char → Nat → Nat
  | [], acc => acc
  | c :: rest, acc =>
      match hexDigitVal c with
      | some v => leadingHexAux rest (acc * 16 + v)
      | none => acc

/-- Parse the longest hexadecimal digit prefix; none when no hex digit
leads (so a bare 0x prefix is NaN, as in JavaScript). -/
def leadingHexDigits : List Char → Option Nat
  | [] => none
  | c :: rest =>
      match hexDigitVal c with
      | some v => some (leadingHexAux rest v)
      | none => none

/-- Parse an unsigned numeral the way JavaScript parseInt does after the
optional sign: a 0x or 0X prefix selects hexadecimal, anything else is
read as a decimal digit prefix. -/
def parseUnsigned (cs : List Char) : Option Nat :=
  match cs with
  | '0' :: 'x' :: rest => leadingHexDigits rest
  | '0' :: 'X' :: rest => leadingHexDigits rest
  | _ => leadingDigits cs

/-- JavaScript parseInt applied to an optional environment string:
parseInt(undefined) is NaN (none); otherwise leading whitespace is
skipped, an optional plus or minus sign is read, a 0x/0X prefix switches
to hexadecimal, and the longest digit prefix is converted — NaN (none)
when no digit follows the sign or prefix. -/
def jsParseInt (x : Option String) : Option Int :=
  match x with
  | none => none
  | some s =>
      match s.data.dropWhile Char.isWhitespace with
      | '-' :: rest => (parseUnsigned rest).map (fun n => -(n : Int))
      | '+' :: rest => (parseUnsigned rest).map (fun n => (n : Int))
      | cs => (parseUnsigned cs).map (fun n => (n : Int))

/-- JavaScript truthiness of `v || d` on a parseInt result: NaN (none)
and 0 are falsy and fall through to the default. -/
def jsOrInt (v : Option Int) (d : Int) : Int :=
  match v with
  | some n => if n = 0 then d else n
  | none => d

/-- The rate-limit environment variables read by the server.js listing. -/
structure RateLimitEnv where
  RATE_LIMIT_WINDOW_MS : Option String
  RATE_LIMIT_MAX_REQUESTS : Option String
deriving DecidableEq, Repr

/-- The configuration object handed to express-rate-limit. -/
structure LimiterConfig where
  windowMs : Int
  max : Int
  message : String
deriving DecidableEq, Repr

/-- The limiter constant from the server.js listing in design.md:
windowMs is parseInt(process.env.RATE_LIMIT_WINDOW_MS) || 15 * 60 * 1000
and max is parseInt(process.env.RATE_LIMIT_MAX_REQUESTS) || 100. -/
def limiter (env : RateLimitEnv) : LimiterConfig :=
  { windowMs := jsOrInt (jsParseInt env.RATE_LIMIT_WINDOW_MS) (15 * 60 * 1000)
    max := jsOrInt (jsParseInt env.RATE_LIMIT_MAX_REQUESTS) 100
    message := "Too many requests from this IP, please try again later." }

/-! ## C9: health-check endpoint from the server.js listing -/

/-- An incoming HTTP request as the handler could observe it. -/
structure Request where
  headers : List (String × String)
  query : List (String × String)
  body : String
deriving DecidableEq, Repr

/-- The JSON body written by the health endpoint. -/
structure HealthBody where
  success : Bool
  message : String
  timestamp : Nat
  environment : Option String
deriving DecidableEq, Repr

/-- An HTTP response of the health endpoint: status code plus JSON body. -/
structure HealthResponse where
  status : Nat
  body : HealthBody
deriving DecidableEq, Repr

/-- The GET /health handler from the server.js listing in design.md:
res.status(200).json with success true, the fixed message, the current
timestamp and process.env.NODE_ENV. -/
def healthHandler (_req : Request) (now : Nat) (nodeEnv : Option String) : HealthResponse :=
  { status := 200
    body :=
      { success := true
        message := "Server is running"
        timestamp := now
        environment := nodeEnv } }

/-! ## C10: getEnvVars from the frontend environment module in README.md -/

/-- One environment configuration object of the ENV constant. -/
structure EnvConfig where
  apiUrl : String
  websocketUrl : String
  enableLogging : Bool
  enableDebugMode : Bool
  apiTimeout : Nat
  useMockData : Bool
  environment : String
  healthCheckUrl : String
deriving DecidableEq, Repr

/-- ENV.development from the README.md listing. -/
def ENV.development : EnvConfig :=
  { apiUrl := "http://localhost:4001/api"
    websocketUrl := "ws://localhost:4001"
    enableLogging := true
    enableDebugMode := true
    apiTimeout := 10000
    useMockData := false
    environment := "development"
    healthCheckUrl := "http://localhost:4001/health" }

/-- ENV.staging from the README.md listing. -/
def ENV.staging : EnvConfig :=
  { apiUrl := "https://college-events-staging.render.com/api"
    websocketUrl := "wss://college-events-staging.render.com"
    enableLogging := true
    enableDebugMode := false
    apiTimeout := 15000
    useMockData := false
    environment := "staging"
    healthCheckUrl := "https://college-events-staging.render.com/health" }

/-- ENV.production from the README.md listing. -/
def ENV.production : EnvConfig :=
  { apiUrl := "https://college-events-api.render.com/api"
    websocketUrl := "wss://college-events-api.render.com"
    enableLogging := false
    enableDebugMode := false
    apiTimeout := 20000
    useMockData := false
    environment := "production"
    healthCheckUrl := "https://college-events-api.render.com/health" }

/-- getEnvVars from the README.md listing: the __DEV__ global selects
development; otherwise the release channel selects staging or production;
every other value falls back to development. -/
def getEnvVars (isDev : Bool) (env : Option String) : EnvConfig :=
  if isDev then ENV.development
  else if env = some "staging" then ENV.staging
  else if env = some "production" then ENV.production
  else ENV.development

/-! ## Session Registry (modelled from the spec, sections 3 and 4.2):
the session and authorization core is specified in the requirements and
design documents but has no implementation in the repository. -/

/-- Modelled from the spec: a Session record of the unimplemented Session
Registry — owning principal id, opaque token, issued-at, expires-at and
device descriptor. -/
structure Session where
  principalId : String
  token : Nat
  issuedAt : Nat
  expiresAt : Nat
  device : String
deriving DecidableEq, Repr

/-- Fixed session lifetime of 45 days in milliseconds, from the
JWT_EXPIRES_IN=45d configuration in README.md and the 1.5 month token
expiry in design.md. -/
def sessionLifetimeMs : Nat := 45 * 24 * 60 * 60 * 1000

/-- Modelled from the spec: a session created at a given instant expires
exactly one fixed lifetime after issuance (not sliding). -/
def freshSession (pid : String) (tok : Nat) (now : Nat) (dev : String) : Session :=
  { principalId := pid
    token := tok
    issuedAt := now
    expiresAt := now + sessionLifetimeMs
    device := dev }

/-- Modelled from the spec: the mutable state of the unimplemented
Session Registry — the table of live sessions plus the current clock. -/
@[ext] structure RegState where
  sessions : List Session
  now : Nat
deriving DecidableEq, Repr

/-- Sessions still unexpired at the given instant. -/
def pruneExpired (l : List Session) (now : Nat) : List Session :=
  l.filter (fun s => decide (now < s.expiresAt))

/-- The unexpired sessions of one principal in the current state. -/
def validSessionsOf (st : RegState) (pid : String) : List Session :=
  (pruneExpired st.sessions st.now).filter (fun s => s.principalId == pid)

/-- Number of simultaneously valid sessions a principal holds. -/
def countValid (st : RegState) (pid : String) : Nat :=
  (validSessionsOf st pid).length

/-- Modelled from the spec: eviction removes the least-recently-used
(oldest-issued) session; this removes one element of least issuedAt. -/
def removeOldest : List Session → List Session
  | [] => []
  | s :: rest =>
      if rest.all (fun t => decide (s.issuedAt ≤ t.issuedAt)) then rest
      else s :: removeOldest rest

/-- Modelled from the spec: failure variant of createSession. -/
inductive SessionError where
  | sessionLimitExceeded
deriving DecidableEq, Repr

/-- Modelled from the spec: the two admissible conflict-resolution
policies when the council concurrency cap of 2 would be exceeded —
reject the request, or evict the least-recently-used session (the spec
leaves the choice open). -/
inductive CreatePolicy where
  | reject
  | evictOldest
deriving DecidableEq, Repr

/-- Modelled from the spec: createSession of the unimplemented Session
Registry. Expired sessions are destroyed (lifecycle: destroyed on token
expiry); for council-tier roles, when the principal already holds 2
unexpired sessions the call either fails with SessionLimitExceeded or
evicts the least-recently-used session, by policy. -/
def createSession (pol : CreatePolicy) (pid : String) (r : Role) (tok : Nat)
    (dev : String) (st : RegState) : Except SessionError RegState :=
  let pruned := pruneExpired st.sessions st.now
  let mine := pruned.filter (fun s => s.principalId == pid)
  let others := pruned.filter (fun s => !(s.principalId == pid))
  let fresh := freshSession pid tok st.now dev
  if isCouncil r && decide (2 ≤ mine.length) then
    match pol with
    | .reject => .error .sessionLimitExceeded
    | .evictOldest => .ok { sessions := others ++ (removeOldest mine ++ [fresh]), now := st.now }
  else
    .ok { sessions := pruned ++ [fresh], now := st.now }

/-- Modelled from the spec: revoke(token) of the unimplemented Session
Registry — removes the session holding the token; revoking an absent
token is not an error (the operation is total on states). -/
def revoke (st : RegState) (tok : Nat) : RegState :=
  { st with sessions := st.sessions.filter (fun s => s.token != tok) }

/-- Modelled from the spec: result of validate(token). -/
inductive ValidateResult where
  | valid (pid : String)
  | sessionExpired
  | sessionNotFound
deriving DecidableEq, Repr

/-- Modelled from the spec: validate(token) of the unimplemented Session
Registry — Principal for a live session, SessionExpired past the fixed
lifetime, SessionNotFound for an absent token. -/
def validate (st : RegState) (tok : Nat) : ValidateResult :=
  match st.sessions.find? (fun s => s.token == tok) with
  | none => .sessionNotFound
  | some s => if st.now < s.expiresAt then .valid s.principalId else .sessionExpired

/-- Modelled from the spec: the operations that drive the Session
Registry state — time passing, session creation, revocation. -/
inductive Op where
  | tick (d : Nat)
  | create (pol : CreatePolicy) (pid : String) (tok : Nat) (dev : String)
  | revokeTok (tok : Nat)

/-- Modelled from the spec: one registry transition; the role of a
principal is fixed by the credential store (roleOf), and a rejected
createSession leaves the state unchanged. -/
def applyOp (roleOf : String → Role) (st : RegState) (op : Op) : RegState :=
  match op with
  | .tick d => { st with now := st.now + d }
  | .create pol pid tok dev =>
      match createSession pol pid (roleOf pid) tok dev st with
      | .ok st' => st'
      | .error _ => st
  | .revokeTok tok => revoke st tok

/-- The empty registry at clock zero. -/
def initialRegState : RegState := { sessions := [], now := 0 }

/-- All states reachable by running a list of operations from the empty
registry. -/
def run (roleOf : String → Role) (ops : List Op) : RegState :=
  ops.foldl (applyOp roleOf) initialRegState

/-- The council concurrency-cap invariant: every council-tier principal
holds at most 2 simultaneously valid sessions. -/
def sessionInv (roleOf : String → Role) (st : RegState) : Prop :=
  ∀ pid, isCouncil (roleOf pid) = true → countValid st pid ≤ 2

/-! ## Credential Store and Auth Service (modelled from the spec,
sections 4.1 and 4.5): also unimplemented in the repository. -/

/-- Modelled from the spec: the salted one-way hash of the unimplemented
Credential Store, as an abstract injective encoding (the store compares
hashes and never recovers the plaintext). -/
def hashPassword (pw : String) : String := "hashed:" ++ pw

/-- Modelled from the spec: a Principal record — identifier, display
name, role, credential hash and the forcePasswordChange flag. -/
structure Principal where
  identifier : String
  displayName : String
  role : Role
  passwordHash : String
  forcePasswordChange : Bool
deriving DecidableEq, Repr

/-- Bootstrap default password for students, from the requirements. -/
def studentDefaultPassword : String := "Kmit123$"

/-- Bootstrap default password for council accounts, from the
requirements. -/
def councilDefaultPassword : String := "Councilkmit25"

/-- Modelled from the spec: a principal seeded with its role class
bootstrap default credential and forcePasswordChange set, as on first
use of a bootstrap default password. -/
def seedPrincipal (identifier displayName : String) (r : Role) : Principal :=
  { identifier := identifier
    displayName := displayName
    role := r
    passwordHash :=
      hashPassword (if r = .student then studentDefaultPassword else councilDefaultPassword)
    forcePasswordChange := true }

/-- Look up a principal by identifier in the credential store. -/
def findPrincipal (store : List Principal) (identifier : String) : Option Principal :=
  store.find? (fun p => p.identifier == identifier)

/-- Modelled from the spec: the single bad-credentials failure of the
unimplemented Credential Store; it carries no cause, so an unknown
identifier and a wrong password yield the same value. -/
inductive AuthFailure where
  | badCredentials
deriving DecidableEq, Repr

/-- Modelled from the spec: verify(identifier, role, plaintextPassword)
of the unimplemented Credential Store — compares against the stored
salted hash; any mismatch (unknown identifier, wrong role class, wrong
password) is the same AuthFailure. -/
def verify (store : List Principal) (identifier : String) (r : Role)
    (pw : String) : Except AuthFailure Principal :=
  match findPrincipal store identifier with
  | none => .error .badCredentials
  | some p =>
      if p.role == r && p.passwordHash == hashPassword pw then .ok p
      else .error .badCredentials

/-- Modelled from the spec: failure variants that surface from login
(bad credentials, distinctly from the session cap being hit). -/
inductive LoginError where
  | authFailure
  | sessionLimitExceeded
deriving DecidableEq, Repr

/-- Modelled from the spec: the per-session state machine of the Auth
Service — Authenticated(normal), Authenticated(mustChangePassword), and
the terminal Revoked state. -/
inductive SessionPhase where
  | normal
  | mustChangePassword
  | revoked
deriving DecidableEq, Repr

/-- Modelled from the spec: the result of a successful login — issued
session token, principal, the forcePasswordChange flag, and the phase
the session starts in. -/
structure LoginResult where
  token : Nat
  principal : Principal
  forcePasswordChange : Bool
  phase : SessionPhase
deriving DecidableEq, Repr

/-- Modelled from the spec: login of the unimplemented Auth Service —
(1) Credential Store verification; (2) Session Registry creation, whose
cap failure surfaces distinctly; (3) the forcePasswordChange flag of the
principal is returned and selects the initial session phase. -/
def login (store : List Principal) (pol : CreatePolicy) (st : RegState)
    (identifier : String) (r : Role) (pw : String) (tok : Nat) (dev : String) :
    Except LoginError (LoginResult × RegState) :=
  match verify store identifier r pw with
  | .error _ => .error .authFailure
  | .ok p =>
      match createSession pol p.identifier p.role tok dev st with
      | .error _ => .error .sessionLimitExceeded
      | .ok st' =>
          .ok ({ token := tok
                 principal := p
                 forcePasswordChange := p.forcePasswordChange
                 phase := if p.forcePasswordChange then .mustChangePassword else .normal }, st')

/-- Modelled from the spec: the actions the Authorizer is asked about. -/
inductive Action where
  | changePassword
  | createEvent
  | editEvent
  | deleteEvent
  | sendClubBroadcast
  | sendCollegeBroadcast
  | joinClub
  | decideMembership
deriving DecidableEq, Repr

/-- Modelled from the spec: an Authorizer decision. -/
inductive Decision where
  | allow
  | deny
deriving DecidableEq, Repr

/-- Modelled from the spec: the state-machine gate in front of the
Authorizer — in the mustChangePassword phase every action except the
password change itself is denied; a revoked session is always denied;
a normal session defers to the underlying Authorizer decision. -/
def gateAuthorize (ph : SessionPhase) (act : Action) (underlying : Decision) : Decision :=
  match ph with
  | .normal => underlying
  | .mustChangePassword => if act = .changePassword then underlying else .deny
  | .revoked => .deny

/-- Modelled from the spec: the events a session phase reacts to. -/
inductive SessionEvent where
  | changePasswordOk
  | changePasswordFail
  | act (a : Action)
  | revokeSession
deriving DecidableEq, Repr

/-- Modelled from the spec: the per-session phase transitions —
mustChangePassword moves to normal only via a successful changePassword;
logout/expiry/eviction moves any phase to the terminal Revoked state;
everything else leaves the phase unchanged. -/
def stepPhase (ph : SessionPhase) (ev : SessionEvent) : SessionPhase :=
  match ph, ev with
  | _, .revokeSession => .revoked
  | .revoked, _ => .revoked
  | .mustChangePassword, .changePasswordOk => .normal
  | .mustChangePassword, _ => .mustChangePassword
  | .normal, _ => .normal

/-- Run a list of session events from a starting phase. -/
def runPhase (ph : SessionPhase) (evs : List SessionEvent) : SessionPhase :=
  evs.foldl stepPhase ph

end CollegeApp

namespace CollegeApp

/-! ## Theorems for claims C6, C7, C9, C10 -/

/-- C6: the options object passed by connectDB to mongoose.connect sets
the server-selection timeout to 5000 ms and the socket timeout to
45000 ms. -/
theorem c6_connect_timeouts :
    connectOptions.serverSelectionTimeoutMS = 5000 ∧
    connectOptions.socketTimeoutMS = 45000 := by
  constructor <;> rfl

/-- C7: for every error thrown by the connection attempt, the error
branch of connectDB (in both checked-in copies) terminates the process
with process.exit(1) instead of returning an error value to the caller. -/
theorem c7_connect_failure_is_terminal :
    ∀ e : DBError,
      connectDB (.error e) = .exit 1 ∧
      connectDBServer (.error e) = .exit 1 ∧
      ∀ r : Except DBError DBConn, connectDB (.error e) ≠ .ret r := by
  intro e
  refine ⟨rfl, rfl, ?_⟩
  intro r h
  cases h

/-- C7 witness: a concrete connection error makes both connectDB copies
exit with code 1 and not return an error value. -/
theorem c7_connect_failure_is_terminal_witness :
    connectDB (.error { message := "refused", code := 1, name := "MongoNetworkError" }) =
      .exit 1 ∧
    connectDBServer (.error { message := "refused", code := 1, name := "MongoNetworkError" }) =
      .exit 1 ∧
    connectDB (.error { message := "refused", code := 1, name := "MongoNetworkError" }) ≠
      .ret (.error { message := "refused", code := 1, name := "MongoNetworkError" }) := by
  have h := c7_connect_failure_is_terminal
    { message := "refused", code := 1, name := "MongoNetworkError" }
  exact ⟨h.1, h.2.1, h.2.2 (.error { message := "refused", code := 1, name := "MongoNetworkError" })⟩

/-- C9: for every request, current time and NODE_ENV value, GET /health
responds with status 200 and a body whose success field is true and whose
message field is the fixed string. -/
theorem c9_health_always_ok :
    ∀ (req : Request) (now : Nat) (nodeEnv : Option String),
      (healthHandler req now nodeEnv).status = 200 ∧
      (healthHandler req now nodeEnv).body.success = true ∧
      (healthHandler req now nodeEnv).body.message = "Server is running" := by
  intro req now nodeEnv
  exact ⟨rfl, rfl, rfl⟩

/-- C10: getEnvVars is total and always yields one of the three ENV
configurations, and when the build is not a development build and the
release channel is neither staging nor production it falls back to the
development configuration. -/
theorem c10_getEnvVars_total_with_fallback :
    ∀ (isDev : Bool) (env : Option String),
      (getEnvVars isDev env = ENV.development ∨
       getEnvVars isDev env = ENV.staging ∨
       getEnvVars isDev env = ENV.production) ∧
      (isDev = false → env ≠ some "staging" → env ≠ some "production" →
        getEnvVars isDev env = ENV.development) := by
  intro isDev env
  constructor
  · unfold getEnvVars
    by_cases h1 : isDev
    · simp [h1]
    · by_cases h2 : env = some "staging"
      · simp [h1, h2]
      · by_cases h3 : env = some "production"
        · simp [h1, h2, h3]
        · simp [h1, h2, h3]
  · intro h1 h2 h3
    unfold getEnvVars
    simp [h1, h2, h3]

/-! ## Helper lemmas for the session-cap development (C1) -/

/-- Helper: pruning distributes over list append. -/
theorem pruneExpired_append (a b : List Session) (now : Nat) :
    pruneExpired (a ++ b) now = pruneExpired a now ++ pruneExpired b now := by
  simp [pruneExpired]

/-- Helper: a list of sessions all unexpired is unchanged by pruning. -/
theorem pruneExpired_eq_self {l : List Session} {now : Nat}
    (h : ∀ s ∈ l, now < s.expiresAt) : pruneExpired l now = l := by
  unfold pruneExpired
  rw [List.filter_eq_self]
  intro s hs
  exact decide_eq_true (h s hs)

/-- Helper: members of a pruned list are unexpired. -/
theorem valid_of_mem_pruneExpired {l : List Session} {now : Nat} {s : Session}
    (h : s ∈ pruneExpired l now) : now < s.expiresAt := by
  unfold pruneExpired at h
  exact of_decide_eq_true (List.mem_filter.mp h).2

/-- Helper: a freshly issued session is unexpired at issuance. -/
theorem fresh_valid (pid : String) (tok now : Nat) (dev : String) :
    now < (freshSession pid tok now dev).expiresAt := by
  show now < now + sessionLifetimeMs
  unfold sessionLifetimeMs
  omega

/-- Helper: eviction of the oldest session yields a sublist. -/
theorem removeOldest_sublist : ∀ l : List Session, (removeOldest l).Sublist l := by
  intro l
  induction l with
  | nil => exact List.nil_sublist _
  | cons s rest ih =>
      unfold removeOldest
      by_cases h : rest.all (fun t => decide (s.issuedAt ≤ t.issuedAt))
      · rw [if_pos h]
        exact List.Sublist.cons s (List.Sublist.refl rest)
      · rw [if_neg h]
        exact List.Sublist.cons₂ s ih

/-- Helper: eviction removes exactly one session from a nonempty list. -/
theorem length_removeOldest : ∀ l : List Session, l ≠ [] →
    (removeOldest l).length = l.length - 1 := by
  intro l
  induction l with
  | nil => intro h; exact absurd rfl h
  | cons s rest ih =>
      intro _
      unfold removeOldest
      by_cases h : rest.all (fun t => decide (s.issuedAt ≤ t.issuedAt))
      · rw [if_pos h]
        simp
      · rw [if_neg h]
        have hne : rest ≠ [] := by
          intro h0
          subst h0
          exact h rfl
        have hlen := ih hne
        have hpos : 0 < rest.length := List.length_pos.mpr hne
        simp only [List.length_cons, hlen]
        omega

/-- Helper: after an eviction-and-create for a principal, that principal
holds exactly the kept sessions plus the fresh one. -/
theorem validSessionsOf_evict_self (st : RegState) (pid : String) (tok : Nat) (dev : String)
    (rm : List Session)
    (hsub : rm.Sublist ((pruneExpired st.sessions st.now).filter (fun s => s.principalId == pid))) :
    validSessionsOf
      { sessions :=
          (pruneExpired st.sessions st.now).filter (fun s => !(s.principalId == pid)) ++
            (rm ++ [freshSession pid tok st.now dev]),
        now := st.now } pid = rm ++ [freshSession pid tok st.now dev] := by
  have hvo : ∀ s ∈ (pruneExpired st.sessions st.now).filter (fun s => !(s.principalId == pid)),
      st.now < s.expiresAt :=
    fun s hs => valid_of_mem_pruneExpired (List.mem_filter.mp hs).1
  have hvr : ∀ s ∈ rm, st.now < s.expiresAt :=
    fun s hs => valid_of_mem_pruneExpired (List.mem_filter.mp (hsub.subset hs)).1
  have hvf : ∀ s ∈ [freshSession pid tok st.now dev], st.now < s.expiresAt := by
    intro s hs
    rw [List.mem_singleton] at hs
    subst hs
    exact fresh_valid pid tok st.now dev
  simp only [validSessionsOf]
  rw [pruneExpired_append, pruneExpired_append]
  rw [pruneExpired_eq_self hvo, pruneExpired_eq_self hvr, pruneExpired_eq_self hvf]
  rw [List.filter_append, List.filter_append]
  have h1 : List.filter (fun s => s.principalId == pid)
      ((pruneExpired st.sessions st.now).filter (fun s => !(s.principalId == pid))) = [] := by
    rw [List.filter_eq_nil_iff]
    intro s hs hmem
    have hno := (List.mem_filter.mp hs).2
    rw [hmem] at hno
    exact absurd hno (by simp)
  have h2 : List.filter (fun s => s.principalId == pid) rm = rm := by
    rw [List.filter_eq_self]
    intro s hs
    exact (List.mem_filter.mp (hsub.subset hs)).2
  have h3 : List.filter (fun s => s.principalId == pid) [freshSession pid tok st.now dev] =
      [freshSession pid tok st.now dev] := by
    simp [List.filter, freshSession]
  rw [h1, h2, h3]
  simp

/-- Helper: an eviction-and-create for one principal does not change the
valid sessions of any other principal. -/
theorem validSessionsOf_evict_other (st : RegState) (pid : String) (tok : Nat) (dev : String)
    (rm : List Session)
    (hsub : rm.Sublist ((pruneExpired st.sessions st.now).filter (fun s => s.principalId == pid)))
    (q : String) (hne : q ≠ pid) :
    validSessionsOf
      { sessions :=
          (pruneExpired st.sessions st.now).filter (fun s => !(s.principalId == pid)) ++
            (rm ++ [freshSession pid tok st.now dev]),
        now := st.now } q = validSessionsOf st q := by
  have hvo : ∀ s ∈ (pruneExpired st.sessions st.now).filter (fun s => !(s.principalId == pid)),
      st.now < s.expiresAt :=
    fun s hs => valid_of_mem_pruneExpired (List.mem_filter.mp hs).1
  have hvr : ∀ s ∈ rm, st.now < s.expiresAt :=
    fun s hs => valid_of_mem_pruneExpired (List.mem_filter.mp (hsub.subset hs)).1
  have hvf : ∀ s ∈ [freshSession pid tok st.now dev], st.now < s.expiresAt := by
    intro s hs
    rw [List.mem_singleton] at hs
    subst hs
    exact fresh_valid pid tok st.now dev
  simp only [validSessionsOf]
  rw [pruneExpired_append, pruneExpired_append]
  rw [pruneExpired_eq_self hvo, pruneExpired_eq_self hvr, pruneExpired_eq_self hvf]
  rw [List.filter_append, List.filter_append]
  have h1 : List.filter (fun s => s.principalId == q)
      ((pruneExpired st.sessions st.now).filter (fun s => !(s.principalId == pid))) =
      List.filter (fun s => s.principalId == q) (pruneExpired st.sessions st.now) := by
    rw [List.filter_filter]
    apply List.filter_congr
    intro s _
    by_cases hq : s.principalId = q
    · have hqp : (q == pid) = false := beq_eq_false_iff_ne.mpr hne
      rw [hq]
      simp [hqp]
    · have hsq : (s.principalId == q) = false := beq_eq_false_iff_ne.mpr hq
      simp [hsq]
  have h2 : List.filter (fun s => s.principalId == q) rm = [] := by
    rw [List.filter_eq_nil_iff]
    intro s hs hq'
    have hp := beq_iff_eq.mp ((List.mem_filter.mp (hsub.subset hs)).2)
    have hq2 := beq_iff_eq.mp hq'
    exact hne (by rw [← hq2, hp])
  have h3 : List.filter (fun s => s.principalId == q) [freshSession pid tok st.now dev] = [] := by
    have hpq : (pid == q) = false := beq_eq_false_iff_ne.mpr (Ne.symm hne)
    simp [List.filter, freshSession, hpq]
  rw [h1, h2, h3]
  simp

/-- Helper: a create below the cap appends the fresh session for the
creating principal. -/
theorem validSessionsOf_append_fresh_self (st : RegState) (pid : String) (tok : Nat)
    (dev : String) :
    validSessionsOf
      { sessions := pruneExpired st.sessions st.now ++ [freshSession pid tok st.now dev],
        now := st.now } pid =
      (pruneExpired st.sessions st.now).filter (fun s => s.principalId == pid) ++
        [freshSession pid tok st.now dev] := by
  have hvp : ∀ s ∈ pruneExpired st.sessions st.now, st.now < s.expiresAt :=
    fun _ hs => valid_of_mem_pruneExpired hs
  have hvf : ∀ s ∈ [freshSession pid tok st.now dev], st.now < s.expiresAt := by
    intro s hs
    rw [List.mem_singleton] at hs
    subst hs
    exact fresh_valid pid tok st.now dev
  simp only [validSessionsOf]
  rw [pruneExpired_append, pruneExpired_eq_self hvp, pruneExpired_eq_self hvf]
  rw [List.filter_append]
  have h3 : List.filter (fun s => s.principalId == pid) [freshSession pid tok st.now dev] =
      [freshSession pid tok st.now dev] := by
    simp [List.filter, freshSession]
  rw [h3]

/-- Helper: a create below the cap does not change the valid sessions of
any other principal. -/
theorem validSessionsOf_append_fresh_other (st : RegState) (pid : String) (tok : Nat)
    (dev : String) (q : String) (hne : q ≠ pid) :
    validSessionsOf
      { sessions := pruneExpired st.sessions st.now ++ [freshSession pid tok st.now dev],
        now := st.now } q = validSessionsOf st q := by
  have hvp : ∀ s ∈ pruneExpired st.sessions st.now, st.now < s.expiresAt :=
    fun _ hs => valid_of_mem_pruneExpired hs
  have hvf : ∀ s ∈ [freshSession pid tok st.now dev], st.now < s.expiresAt := by
    intro s hs
    rw [List.mem_singleton] at hs
    subst hs
    exact fresh_valid pid tok st.now dev
  simp only [validSessionsOf]
  rw [pruneExpired_append, pruneExpired_eq_self hvp, pruneExpired_eq_self hvf]
  rw [List.filter_append]
  have h3 : List.filter (fun s => s.principalId == q) [freshSession pid tok st.now dev] = [] := by
    have hpq : (pid == q) = false := beq_eq_false_iff_ne.mpr (Ne.symm hne)
    simp [List.filter, freshSession, hpq]
  rw [h3]
  simp

/-- Helper: time passing can only shrink the count of valid sessions. -/
theorem countValid_tick_le (st : RegState) (d : Nat) (q : String) :
    countValid { st with now := st.now + d } q ≤ countValid st q := by
  simp only [countValid, validSessionsOf, pruneExpired]
  apply List.Sublist.length_le
  simp only [List.filter_filter]
  apply List.monotone_filter_right
  intro a ha
  simp only [Bool.and_eq_true, decide_eq_true_eq] at ha ⊢
  exact ⟨ha.1, by omega⟩

/-- Helper: revocation can only shrink the count of valid sessions. -/
theorem countValid_revoke_le (st : RegState) (tok : Nat) (q : String) :
    countValid (revoke st tok) q ≤ countValid st q := by
  simp only [countValid, validSessionsOf, pruneExpired, revoke]
  apply List.Sublist.length_le
  simp only [List.filter_filter]
  apply List.monotone_filter_right
  intro a ha
  simp only [Bool.and_eq_true] at ha ⊢
  exact ⟨ha.1, ha.2.1⟩

/-- Helper: a successful createSession leaves other principals untouched
and keeps a council principal at or below the cap of 2. -/
theorem countValid_createSession_le (pol : CreatePolicy) (pid : String) (r : Role)
    (tok : Nat) (dev : String) (st st' : RegState)
    (hok : createSession pol pid r tok dev st = .ok st') (q : String) :
    (q ≠ pid → countValid st' q = countValid st q) ∧
    (isCouncil r = true → countValid st pid ≤ 2 → countValid st' pid ≤ 2) := by
  simp only [createSession] at hok
  by_cases hcond : (isCouncil r && decide (2 ≤
      ((pruneExpired st.sessions st.now).filter (fun s => s.principalId == pid)).length)) = true
  · rw [if_pos hcond] at hok
    cases pol with
    | reject => simp at hok
    | evictOldest =>
        injection hok with h
        subst h
        constructor
        · intro hne
          simp only [countValid]
          rw [validSessionsOf_evict_other st pid tok dev _ (removeOldest_sublist _) q hne]
        · intro _ hle
          simp only [countValid]
          rw [validSessionsOf_evict_self st pid tok dev _ (removeOldest_sublist _)]
          rw [List.length_append]
          have h2le : 2 ≤
              ((pruneExpired st.sessions st.now).filter (fun s => s.principalId == pid)).length := by
            have hc2 := hcond
            simp only [Bool.and_eq_true] at hc2
            exact of_decide_eq_true hc2.2
          have hnil : (pruneExpired st.sessions st.now).filter
              (fun s => s.principalId == pid) ≠ [] := by
            intro h0
            rw [h0] at h2le
            simp at h2le
          rw [length_removeOldest _ hnil]
          have hfold : countValid st pid =
              ((pruneExpired st.sessions st.now).filter (fun s => s.principalId == pid)).length :=
            rfl
          simp only [List.length_singleton]
          omega
  · rw [if_neg hcond] at hok
    injection hok with h
    subst h
    constructor
    · intro hne
      simp only [countValid]
      rw [validSessionsOf_append_fresh_other st pid tok dev q hne]
    · intro hcouncil hle
      simp only [countValid]
      rw [validSessionsOf_append_fresh_self st pid tok dev]
      rw [List.length_append]
      have hlt : ¬ (2 ≤
          ((pruneExpired st.sessions st.now).filter (fun s => s.principalId == pid)).length) := by
        intro hge
        exact hcond (by rw [hcouncil, decide_eq_true hge]; rfl)
      simp only [List.length_singleton]
      omega

/-- Helper: every registry operation preserves the council session cap. -/
theorem applyOp_preserves_sessionInv (roleOf : String → Role) (st : RegState) (op : Op)
    (h : sessionInv roleOf st) : sessionInv roleOf (applyOp roleOf st op) := by
  cases op with
  | tick d =>
      intro q hq
      exact le_trans (countValid_tick_le st d q) (h q hq)
  | revokeTok tok =>
      intro q hq
      exact le_trans (countValid_revoke_le st tok q) (h q hq)
  | create pol pid tok dev =>
      intro q hq
      simp only [applyOp]
      cases hc : createSession pol pid (roleOf pid) tok dev st with
      | error e => exact h q hq
      | ok st' =>
          by_cases hqp : q = pid
          · subst hqp
            exact (countValid_createSession_le pol q (roleOf q) tok dev st st' hc q).2 hq (h q hq)
          · rw [show countValid st' q = countValid st q from
              (countValid_createSession_le pol pid (roleOf pid) tok dev st st' hc q).1 hqp]
            exact h q hq

/-- Helper: the cap invariant is preserved along any run of operations. -/
theorem foldl_preserves_sessionInv (roleOf : String → Role) (ops : List Op) :
    ∀ st : RegState, sessionInv roleOf st →
      sessionInv roleOf (ops.foldl (applyOp roleOf) st) := by
  induction ops with
  | nil => intro st h; exact h
  | cons op rest ih =>
      intro st h
      exact ih (applyOp roleOf st op) (applyOp_preserves_sessionInv roleOf st op h)

/-- Helper: the empty registry satisfies the cap invariant. -/
theorem sessionInv_initial (roleOf : String → Role) : sessionInv roleOf initialRegState := by
  intro pid _
  simp [countValid, validSessionsOf, pruneExpired, initialRegState]

/-! ## Theorems for claims C2, C3, C4, C5, C8 -/

/-- C2: a login with an unknown identifier and a login with a wrong
password for an existing identifier return the identical AuthFailure
value, so the caller cannot distinguish the two cases. -/
theorem c2_auth_failure_indistinguishable :
    ∀ (store : List Principal) (pol : CreatePolicy) (st : RegState)
      (idA idB pwA pwB : String) (r : Role) (tokA tokB : Nat)
      (devA devB : String) (p : Principal),
      findPrincipal store idA = none →
      findPrincipal store idB = some p →
      p.passwordHash ≠ hashPassword pwB →
      login store pol st idA r pwA tokA devA = .error .authFailure ∧
      login store pol st idB r pwB tokB devB = .error .authFailure ∧
      login store pol st idA r pwA tokA devA = login store pol st idB r pwB tokB devB := by
  intro store pol st idA idB pwA pwB r tokA tokB devA devB p hA hB hpw
  have hfalse : (p.passwordHash == hashPassword pwB) = false :=
    beq_eq_false_iff_ne.mpr hpw
  have h1 : login store pol st idA r pwA tokA devA = .error .authFailure := by
    simp [login, verify, hA]
  have h2 : login store pol st idB r pwB tokB devB = .error .authFailure := by
    simp [login, verify, hB, hfalse]
  exact ⟨h1, h2, h1.trans h2.symm⟩

/-- C2 witness: a concrete store where the unknown-identifier login and
the wrong-password login both yield the same AuthFailure. -/
theorem c2_auth_failure_indistinguishable_witness :
    findPrincipal [seedPrincipal "S123" "Stu" .student] "NOBODY" = none ∧
    findPrincipal [seedPrincipal "S123" "Stu" .student] "S123" =
      some (seedPrincipal "S123" "Stu" .student) ∧
    (seedPrincipal "S123" "Stu" .student).passwordHash ≠ hashPassword "wrongpass" ∧
    login [seedPrincipal "S123" "Stu" .student] .reject initialRegState
        "NOBODY" .student "x" 1 "d" = .error .authFailure ∧
    login [seedPrincipal "S123" "Stu" .student] .reject initialRegState
        "S123" .student "wrongpass" 2 "d" = .error .authFailure := by
  refine ⟨by decide, by decide, by decide, ?_⟩
  have h := c2_auth_failure_indistinguishable
    [seedPrincipal "S123" "Stu" .student] .reject initialRegState
    "NOBODY" "S123" "x" "wrongpass" .student 1 2 "d" "d"
    (seedPrincipal "S123" "Stu" .student) (by decide) (by decide) (by decide)
  exact ⟨h.1, h.2.1⟩

/-- Helper: from the mustChangePassword or revoked phase, a run of
session events containing no successful password change can only end in
the mustChangePassword or revoked phase. -/
theorem runPhase_gated_of_no_change (evs : List SessionEvent) :
    (∀ e ∈ evs, e ≠ .changePasswordOk) →
    ∀ ph, (ph = .mustChangePassword ∨ ph = .revoked) →
      runPhase ph evs = .mustChangePassword ∨ runPhase ph evs = .revoked := by
  induction evs with
  | nil => intro _ ph hph; exact hph
  | cons e rest ih =>
      intro h ph hph
      have he : e ≠ .changePasswordOk := h e (List.mem_cons_self e rest)
      have hrest : ∀ x ∈ rest, x ≠ SessionEvent.changePasswordOk :=
        fun x hx => h x (List.mem_cons_of_mem e hx)
      have hstep : stepPhase ph e = .mustChangePassword ∨ stepPhase ph e = .revoked := by
        rcases hph with h1 | h1 <;> subst h1 <;> cases e <;> simp_all [stepPhase]
      exact ih hrest (stepPhase ph e) hstep

/-- C3: a login on a principal whose forcePasswordChange flag is set (as
on first use of a bootstrap default password) still succeeds and issues a
session, in the mustChangePassword phase; in every phase reachable from
that phase without a successful password change, every gated Authorizer
call is denied except the password-change action itself, which defers to
the underlying decision. -/
theorem c3_force_password_change_gate :
    (∀ identifier displayName : String,
       (seedPrincipal identifier displayName .student).passwordHash =
         hashPassword studentDefaultPassword ∧
       (seedPrincipal identifier displayName .student).forcePasswordChange = true) ∧
    (∀ (store : List Principal) (pol : CreatePolicy) (st st' : RegState)
       (identifier pw : String) (tok : Nat) (dev : String) (p : Principal),
       findPrincipal store identifier = some p →
       p.passwordHash = hashPassword pw →
       p.forcePasswordChange = true →
       createSession pol p.identifier p.role tok dev st = .ok st' →
       login store pol st identifier p.role pw tok dev =
         .ok ({ token := tok, principal := p, forcePasswordChange := true,
                phase := .mustChangePassword }, st')) ∧
    (∀ evs : List SessionEvent,
       (∀ e ∈ evs, e ≠ .changePasswordOk) →
       runPhase .mustChangePassword evs ≠ .normal ∧
       (∀ (act : Action) (u : Decision), act ≠ .changePassword →
          gateAuthorize (runPhase .mustChangePassword evs) act u = .deny)) ∧
    (∀ u : Decision, gateAuthorize .mustChangePassword .changePassword u = u) := by
  refine ⟨?_, ?_, ?_, ?_⟩
  · intro identifier displayName
    exact ⟨rfl, rfl⟩
  · intro store pol st st' identifier pw tok dev p hfind hpw hforce hcs
    have htrue : (p.passwordHash == hashPassword pw) = true := beq_iff_eq.mpr hpw
    simp [login, verify, hfind, htrue, hcs, hforce]
  · intro evs hno
    have h := runPhase_gated_of_no_change evs hno .mustChangePassword (Or.inl rfl)
    constructor
    · rcases h with h1 | h1 <;> rw [h1] <;> simp
    · intro act u hact
      rcases h with h1 | h1 <;> rw [h1] <;> simp [gateAuthorize, hact]
  · intro u
    rfl

/-- C3 witness: a fresh student principal with the bootstrap default
password logs in successfully into the mustChangePassword phase, and a
non-password-change action on that session is denied. -/
theorem c3_force_password_change_gate_witness :
    login [seedPrincipal "S123" "Stu" .student] .reject initialRegState
        "S123" .student "Kmit123$" 1 "phone" =
      .ok ({ token := 1, principal := seedPrincipal "S123" "Stu" .student,
             forcePasswordChange := true, phase := .mustChangePassword },
           { sessions := [freshSession "S123" 1 0 "phone"], now := 0 }) ∧
    gateAuthorize (runPhase .mustChangePassword [.act .createEvent]) .createEvent .allow =
      .deny := by
  constructor
  · exact c3_force_password_change_gate.2.1
      [seedPrincipal "S123" "Stu" .student] .reject initialRegState
      { sessions := [freshSession "S123" 1 0 "phone"], now := 0 }
      "S123" "Kmit123$" 1 "phone" (seedPrincipal "S123" "Stu" .student)
      (by decide) rfl rfl rfl
  · exact (c3_force_password_change_gate.2.2.1 [.act .createEvent]
      (by intro e he; simp at he; subst he; decide)).2 .createEvent .allow (by decide)

/-- C4: revoke(token) is idempotent — a second revoke of the same token
leaves the registry unchanged, and revoking a token absent from the
registry is a no-op rather than an error. -/
theorem c4_revoke_idempotent :
    (∀ (st : RegState) (tok : Nat), revoke (revoke st tok) tok = revoke st tok) ∧
    (∀ (st : RegState) (tok : Nat), (∀ s ∈ st.sessions, s.token ≠ tok) →
       revoke st tok = st) := by
  constructor
  · intro st tok
    cases st with
    | mk sessions now =>
        simp [revoke, List.filter_filter]
  · intro st tok h
    cases st with
    | mk sessions now =>
        simp only [revoke]
        congr 1
        rw [List.filter_eq_self]
        intro s hs
        simpa using h s hs

/-- C4 witness: revoking a token not present in a concrete registry
leaves it unchanged, and revoking twice equals revoking once. -/
theorem c4_revoke_idempotent_witness :
    (∀ s ∈ ({ sessions := [freshSession "p" 1 0 "d"], now := 0 } : RegState).sessions,
       s.token ≠ 5) ∧
    revoke { sessions := [freshSession "p" 1 0 "d"], now := 0 } 5 =
      { sessions := [freshSession "p" 1 0 "d"], now := 0 } ∧
    revoke (revoke { sessions := [freshSession "p" 1 0 "d"], now := 0 } 1) 1 =
      revoke { sessions := [freshSession "p" 1 0 "d"], now := 0 } 1 := by
  refine ⟨by decide, ?_, ?_⟩
  · exact c4_revoke_idempotent.2 { sessions := [freshSession "p" 1 0 "d"], now := 0 } 5
      (by decide)
  · exact c4_revoke_idempotent.1 { sessions := [freshSession "p" 1 0 "d"], now := 0 } 1

/-- C5: every created session expires exactly one fixed 45-day lifetime
(in milliseconds) after issuance, and validate(token) on a session older
than that lifetime returns SessionExpired. -/
theorem c5_fixed_lifetime_expiry :
    (∀ (pid : String) (tok now : Nat) (dev : String),
       (freshSession pid tok now dev).expiresAt =
         (freshSession pid tok now dev).issuedAt + sessionLifetimeMs) ∧
    sessionLifetimeMs = 45 * 24 * 60 * 60 * 1000 ∧
    (∀ (st : RegState) (tok : Nat) (s : Session),
       st.sessions.find? (fun x => x.token == tok) = some s →
       s.expiresAt = s.issuedAt + sessionLifetimeMs →
       s.issuedAt + sessionLifetimeMs < st.now →
       validate st tok = .sessionExpired) := by
  refine ⟨fun pid tok now dev => rfl, rfl, ?_⟩
  intro st tok s hfind hfixed hold
  unfold validate
  rw [hfind]
  have : ¬ st.now < s.expiresAt := by omega
  simp [this]

/-- C5 witness: validating a concrete session one millisecond past its
45-day lifetime yields SessionExpired. -/
theorem c5_fixed_lifetime_expiry_witness :
    ({ sessions := [freshSession "p" 1 0 "d"],
       now := sessionLifetimeMs + 1 } : RegState).sessions.find?
        (fun x => x.token == 1) = some (freshSession "p" 1 0 "d") ∧
    validate { sessions := [freshSession "p" 1 0 "d"], now := sessionLifetimeMs + 1 } 1 =
      .sessionExpired := by
  refine ⟨by decide, ?_⟩
  exact c5_fixed_lifetime_expiry.2.2
    { sessions := [freshSession "p" 1 0 "d"], now := sessionLifetimeMs + 1 } 1
    (freshSession "p" 1 0 "d") (by decide) rfl (by decide)

/-- C8 counterexample: with RATE_LIMIT_WINDOW_MS set to the string 0,
the claim as stated requires windowMs = 0, but the JavaScript falsiness
of 0 in the or-default makes the code use the 900000 ms default. -/
theorem c8_rate_limit_counterexample :
    jsParseInt (some "0") = some 0 ∧
    (limiter { RATE_LIMIT_WINDOW_MS := some "0",
               RATE_LIMIT_MAX_REQUESTS := some "7" }).windowMs = 900000 ∧
    (limiter { RATE_LIMIT_WINDOW_MS := some "0",
               RATE_LIMIT_MAX_REQUESTS := some "7" }).windowMs ≠ 0 := by
  refine ⟨by decide, by decide, by decide⟩

/-- C8 (amended): windowMs and max equal the parsed environment values
when those parse to a nonzero integer, and fall back to the defaults of
900000 ms and 100 requests when the variable is absent, unparsable, or
parses to zero. -/
theorem c8_rate_limit_config :
    (∀ (env : RateLimitEnv) (wn : Int),
       jsParseInt env.RATE_LIMIT_WINDOW_MS = some wn → wn ≠ 0 →
       (limiter env).windowMs = wn) ∧
    (∀ (env : RateLimitEnv) (mn : Int),
       jsParseInt env.RATE_LIMIT_MAX_REQUESTS = some mn → mn ≠ 0 →
       (limiter env).max = mn) ∧
    (∀ env : RateLimitEnv,
       (jsParseInt env.RATE_LIMIT_WINDOW_MS = none ∨
        jsParseInt env.RATE_LIMIT_WINDOW_MS = some 0) →
       (limiter env).windowMs = 15 * 60 * 1000) ∧
    (∀ env : RateLimitEnv,
       (jsParseInt env.RATE_LIMIT_MAX_REQUESTS = none ∨
        jsParseInt env.RATE_LIMIT_MAX_REQUESTS = some 0) →
       (limiter env).max = 100) := by
  refine ⟨?_, ?_, ?_, ?_⟩
  · intro env wn h hne
    simp [limiter, jsOrInt, h, hne]
  · intro env mn h hne
    simp [limiter, jsOrInt, h, hne]
  · intro env h
    rcases h with h | h <;> simp [limiter, jsOrInt, h]
  · intro env h
    rcases h with h | h <;> simp [limiter, jsOrInt, h]

/-- C8 witness: concrete environment values are taken over the defaults
in the shapes parseInt accepts — plain decimal, leading whitespace, a
leading plus sign, and a 0x hexadecimal prefix — and a concrete absent
pair falls back to 900000 and 100. -/
theorem c8_rate_limit_config_witness :
    jsParseInt (some "600000") = some 600000 ∧
    jsParseInt (some " 900") = some 900 ∧
    jsParseInt (some "+5") = some 5 ∧
    jsParseInt (some "0x10") = some 16 ∧
    (limiter { RATE_LIMIT_WINDOW_MS := some "600000",
               RATE_LIMIT_MAX_REQUESTS := some "50" }).windowMs = 600000 ∧
    (limiter { RATE_LIMIT_WINDOW_MS := some "600000",
               RATE_LIMIT_MAX_REQUESTS := some "50" }).max = 50 ∧
    (limiter { RATE_LIMIT_WINDOW_MS := some " 900",
               RATE_LIMIT_MAX_REQUESTS := some "+5" }).windowMs = 900 ∧
    (limiter { RATE_LIMIT_WINDOW_MS := some " 900",
               RATE_LIMIT_MAX_REQUESTS := some "+5" }).max = 5 ∧
    (limiter { RATE_LIMIT_WINDOW_MS := some "0x10",
               RATE_LIMIT_MAX_REQUESTS := some "abc" }).windowMs = 16 ∧
    (limiter { RATE_LIMIT_WINDOW_MS := none,
               RATE_LIMIT_MAX_REQUESTS := none }).windowMs = 900000 ∧
    (limiter { RATE_LIMIT_WINDOW_MS := none,
               RATE_LIMIT_MAX_REQUESTS := none }).max = 100 := by
  refine ⟨by decide, by decide, by decide, by decide, ?_, ?_, ?_, ?_, ?_, ?_, ?_⟩
  · exact c8_rate_limit_config.1
      { RATE_LIMIT_WINDOW_MS := some "600000", RATE_LIMIT_MAX_REQUESTS := some "50" }
      600000 (by decide) (by decide)
  · exact c8_rate_limit_config.2.1
      { RATE_LIMIT_WINDOW_MS := some "600000", RATE_LIMIT_MAX_REQUESTS := some "50" }
      50 (by decide) (by decide)
  · exact c8_rate_limit_config.1
      { RATE_LIMIT_WINDOW_MS := some " 900", RATE_LIMIT_MAX_REQUESTS := some "+5" }
      900 (by decide) (by decide)
  · exact c8_rate_limit_config.2.1
      { RATE_LIMIT_WINDOW_MS := some " 900", RATE_LIMIT_MAX_REQUESTS := some "+5" }
      5 (by decide) (by decide)
  · exact c8_rate_limit_config.1
      { RATE_LIMIT_WINDOW_MS := some "0x10", RATE_LIMIT_MAX_REQUESTS := some "abc" }
      16 (by decide) (by decide)
  · exact c8_rate_limit_config.2.2.1
      { RATE_LIMIT_WINDOW_MS := none, RATE_LIMIT_MAX_REQUESTS := none } (Or.inl rfl)
  · exact c8_rate_limit_config.2.2.2
      { RATE_LIMIT_WINDOW_MS := none, RATE_LIMIT_MAX_REQUESTS := none } (Or.inl rfl)

/-- C1: for a council-tier principal holding 2 valid sessions, a call to
createSession either fails with SessionLimitExceeded or evicts exactly
one prior valid session (leaving 2 valid sessions), and in every state
reachable from the empty registry a council principal holds at most 2
simultaneously valid sessions. -/
theorem c1_council_session_cap :
    (∀ (pol : CreatePolicy) (st : RegState) (pid : String) (r : Role) (tok : Nat)
       (dev : String),
       isCouncil r = true →
       countValid st pid = 2 →
       createSession pol pid r tok dev st = .error .sessionLimitExceeded ∨
       ∃ st', createSession pol pid r tok dev st = .ok st' ∧
         ∃ kept, kept.Sublist (validSessionsOf st pid) ∧ kept.length = 1 ∧
           validSessionsOf st' pid = kept ++ [freshSession pid tok st.now dev] ∧
           countValid st' pid = 2) ∧
    (∀ (roleOf : String → Role) (ops : List Op) (pid : String),
       isCouncil (roleOf pid) = true →
       countValid (run roleOf ops) pid ≤ 2) := by
  constructor
  · intro pol st pid r tok dev hc h2
    have hlen : ((pruneExpired st.sessions st.now).filter
        (fun s => s.principalId == pid)).length = 2 := h2
    have hcond : (isCouncil r && decide (2 ≤
        ((pruneExpired st.sessions st.now).filter (fun s => s.principalId == pid)).length)) =
        true := by
      rw [hc, hlen]
      rfl
    have hnil : (pruneExpired st.sessions st.now).filter
        (fun s => s.principalId == pid) ≠ [] := by
      intro h0
      rw [h0] at hlen
      simp at hlen
    cases pol with
    | reject =>
        left
        simp only [createSession]
        rw [if_pos hcond]
    | evictOldest =>
        right
        refine ⟨{ sessions :=
                    (pruneExpired st.sessions st.now).filter
                        (fun s => !(s.principalId == pid)) ++
                      (removeOldest ((pruneExpired st.sessions st.now).filter
                        (fun s => s.principalId == pid)) ++ [freshSession pid tok st.now dev]),
                  now := st.now }, ?_, ?_⟩
        · simp only [createSession]
          rw [if_pos hcond]
        · refine ⟨removeOldest ((pruneExpired st.sessions st.now).filter
            (fun s => s.principalId == pid)), removeOldest_sublist _, ?_, ?_, ?_⟩
          · rw [length_removeOldest _ hnil, hlen]
          · exact validSessionsOf_evict_self st pid tok dev _ (removeOldest_sublist _)
          · simp only [countValid]
            rw [validSessionsOf_evict_self st pid tok dev _ (removeOldest_sublist _)]
            rw [List.length_append, length_removeOldest _ hnil, hlen]
            rfl
  · intro roleOf ops pid hq
    exact foldl_preserves_sessionInv roleOf ops initialRegState (sessionInv_initial roleOf) pid hq

/-- C1 witness: a concrete council principal with 2 valid sessions, under
the reject policy, has its 3rd createSession refused, and a concrete run
of operations keeps the count at or below 2. -/
theorem c1_council_session_cap_witness :
    isCouncil Role.pr = true ∧
    countValid { sessions := [freshSession "p" 1 0 "a", freshSession "p" 2 0 "b"],
                 now := 0 } "p" = 2 ∧
    (createSession .reject "p" .pr 3 "c"
        { sessions := [freshSession "p" 1 0 "a", freshSession "p" 2 0 "b"], now := 0 } =
          .error .sessionLimitExceeded ∨
     ∃ st', createSession .reject "p" .pr 3 "c"
         { sessions := [freshSession "p" 1 0 "a", freshSession "p" 2 0 "b"], now := 0 } =
           .ok st' ∧
       ∃ kept, kept.Sublist (validSessionsOf
           { sessions := [freshSession "p" 1 0 "a", freshSession "p" 2 0 "b"], now := 0 } "p") ∧
         kept.length = 1 ∧
         validSessionsOf st' "p" = kept ++ [freshSession "p" 3 0 "c"] ∧
         countValid st' "p" = 2) ∧
    countValid (run (fun _ => Role.pr)
      [.create .evictOldest "p" 1 "d", .create .evictOldest "p" 2 "d",
       .create .evictOldest "p" 3 "d"]) "p" ≤ 2 := by
  refine ⟨rfl, by decide, ?_, ?_⟩
  · exact c1_council_session_cap.1 .reject
      { sessions := [freshSession "p" 1 0 "a", freshSession "p" 2 0 "b"], now := 0 }
      "p" .pr 3 "c" rfl (by decide)
  · exact c1_council_session_cap.2 (fun _ => Role.pr)
      [.create .evictOldest "p" 1 "d", .create .evictOldest "p" 2 "d",
       .create .evictOldest "p" 3 "d"] "p" rfl

/-- C10 witness: at a concrete non-development build with an unrecognized
release channel, getEnvVars returns the development configuration. -/
theorem c10_getEnvVars_witness :
    (false = false) ∧ (some "beta" ≠ some "staging") ∧
    (some "beta" ≠ some "production") ∧
    getEnvVars false (some "beta") = ENV.development := by
  refine ⟨rfl, by decide, by decide, ?_⟩
  exact (c10_getEnvVars_total_with_fallback false (some "beta")).2 rfl (by decide) (by decide)

end CollegeApp
